import Mathlib

/-!
Shallow embedding of `src/digisac_sender_text_v01.py` (DigiSac batch image
sender).  Python strings are modelled as Lean `String`/`List Char` (ASCII
fragment of the Unicode predicates used by the source), bytes as `List Nat`,
and the external world (filesystem, network image source, Pillow, gateway)
as an explicit `World` of response functions.  The CSV dialect sniffing and
the file decoding layer are outside the model: the contact loader is
embedded from the parsed-cell level on (header cells and data rows as lists
of strings), exactly mirroring lines 76-92 of the source.
-/

namespace Digisac

/-! ### Python string primitives -/

/-- ASCII model of the whitespace class used by Python `str.strip()`. -/
def pyIsSpace (c : Char) : Bool :=
  c = ' ' || c = '\t' || c = '\n' || c = '\r' || c = '\x0b' || c = '\x0c'

/-- Model of `str.strip()` on the character list: drop leading and trailing
whitespace. -/
def pyStripL (l : List Char) : List Char :=
  ((l.dropWhile pyIsSpace).reverse.dropWhile pyIsSpace).reverse

/-- Model of Python `str.strip()`. -/
def pyStrip (s : String) : String := ⟨pyStripL s.data⟩

/-- Model of Python `str.lower()` (ASCII fragment). -/
def pyLower (s : String) : String := ⟨s.data.map Char.toLower⟩

/-- Model of Python `s.startswith(pre)`. -/
def pyStartsWith (s pre : String) : Bool := List.isPrefixOf pre.data s.data

/-- Model of Python `s.endswith(suf)`. -/
def pyEndsWith (s suf : String) : Bool := List.isSuffixOf suf.data s.data

/-- Model of the Python slice `s[:n]`. -/
def strTake (n : Nat) (s : String) : String := ⟨s.data.take n⟩

/-- Model of Python `s.rstrip("/")` (used on the API base URL). -/
def rstripSlash (s : String) : String :=
  ⟨(s.data.reverse.dropWhile (fun c => c = '/')).reverse⟩

/-- Model of the Python expression `a or b` for an optional string `a`
(`None` and `""` are falsy). -/
def orElseStr (a : Option String) (b : String) : String :=
  match a with
  | some s => if s = "" then b else s
  | none => b

/-! ### `normalize_phone` (source lines 23-29) -/

/-- Kernel of `normalize_phone` on character lists: strip whitespace, keep
digits, strip leading zeros, and prepend `"55"` when the result has at
least 10 digits and does not already start with `"55"`. -/
def normAux (l : List Char) : List Char :=
  let s0 := pyStripL l
  let s1 := s0.filter Char.isDigit
  let s2 := s1.dropWhile (fun c => c = '0')
  if 10 ≤ s2.length && !(List.isPrefixOf ['5', '5'] s2) then '5' :: '5' :: s2 else s2

/-- Embedding of `normalize_phone` (source lines 23-29).  The function is
total by construction, matching the "no exceptions, always returns a
string" contract. -/
def normalize_phone (raw : String) : String := ⟨normAux raw.data⟩

/-! ### Compact JSON serialization (model of `json.dumps(..., ensure_ascii=False,
separators=(",", ":"))`) -/

/-- JSON values, as produced for the ledger `detalhe` column. -/
inductive Json where
  | null
  | bool (b : Bool)
  | num (n : Int)
  | str (s : String)
  | arr (xs : List Json)
  | obj (kvs : List (String × Json))

/-- Two-digit lowercase hex rendering used in `\u00XX` escapes. -/
def hexDigit (n : Nat) : Char :=
  if n < 10 then Char.ofNat ('0'.toNat + n) else Char.ofNat ('a'.toNat + n - 10)

/-- JSON string-character escaping as performed by `json.dumps` with
`ensure_ascii=False`: quote, backslash and control characters are escaped,
everything else passes through. -/
def jsonEscapeChar (c : Char) : String :=
  if c = '"' then "\\\""
  else if c = '\\' then "\\\\"
  else if c = '\n' then "\\n"
  else if c = '\r' then "\\r"
  else if c = '\t' then "\\t"
  else if c = '\x08' then "\\b"
  else if c = '\x0c' then "\\f"
  else if c.toNat < 0x20 then
    ⟨['\\', 'u', '0', '0', hexDigit (c.toNat / 16), hexDigit (c.toNat % 16)]⟩
  else ⟨[c]⟩

/-- Serialization of a JSON string literal. -/
def jsonStr (s : String) : String :=
  "\"" ++ String.join (s.data.map jsonEscapeChar) ++ "\""

mutual

/-- Compact serialization: model of
`json.dumps(x, ensure_ascii=False, separators=(",", ":"))`. -/
def Json.dumps : Json → String
  | .null => "null"
  | .bool true => "true"
  | .bool false => "false"
  | .num n => toString n
  | .str s => jsonStr s
  | .arr xs => "[" ++ Json.dumpsList xs ++ "]"
  | .obj kvs => "\x7b" ++ Json.dumpsObj kvs ++ "\x7d"

/-- Comma-separated serialization of array elements. -/
def Json.dumpsList : List Json → String
  | [] => ""
  | [x] => Json.dumps x
  | x :: y :: rest => Json.dumps x ++ "," ++ Json.dumpsList (y :: rest)

/-- Comma-separated serialization of object entries (insertion order,
`":"` as the key separator). -/
def Json.dumpsObj : List (String × Json) → String
  | [] => ""
  | [(k, v)] => jsonStr k ++ ":" ++ Json.dumps v
  | (k, v) :: e :: rest => jsonStr k ++ ":" ++ Json.dumps v ++ "," ++ Json.dumpsObj (e :: rest)

end

/-! ### Base64 (model of `base64.b64encode(...).decode("ascii")`, source line 60-61) -/

/-- Bytes are modelled as lists of naturals below 256. -/
abbrev Bytes := List Nat

/-- Standard base64 alphabet indexing. -/
def b64Char (n : Nat) : Char :=
  if n < 26 then Char.ofNat ('A'.toNat + n)
  else if n < 52 then Char.ofNat ('a'.toNat + n - 26)
  else if n < 62 then Char.ofNat ('0'.toNat + n - 52)
  else if n = 62 then '+' else '/'

/-- Embedding of `to_base64` (source lines 60-61): RFC 4648 base64 of the
byte list, with `=` padding. -/
def to_base64 : Bytes → String
  | [] => ""
  | [a] =>
    ⟨[b64Char (a / 4 % 64), b64Char (a % 4 * 16), '=', '=']⟩
  | [a, b] =>
    ⟨[b64Char (a / 4 % 64), b64Char (a % 4 * 16 + b / 16 % 16), b64Char (b % 16 * 4), '=']⟩
  | a :: b :: c :: rest =>
    ⟨[b64Char (a / 4 % 64), b64Char (a % 4 * 16 + b / 16 % 16),
      b64Char (b % 16 * 4 + c / 64 % 4), b64Char (c % 64)]⟩ ++ to_base64 rest

/-! ### File-name derivation (source lines 128 and 137, via `pathlib.Path`) -/

/-- Model of `pathlib.Path(s).name` for regular paths (no `.`/`..`
components): trailing slashes dropped, then the part after the last
slash. -/
def pathName (s : String) : String :=
  let t := (s.data.reverse.dropWhile (fun c => c = '/')).reverse
  ⟨(t.reverse.takeWhile (fun c => c ≠ '/')).reverse⟩

/-- Model of `pathlib.Path(s).stem`: the final component with its suffix
removed; following CPython, the suffix starts at the last dot `i` of the
name only when `0 < i < len(name) - 1`. -/
def pathStem (s : String) : String :=
  let n := (pathName s).data
  match rfindDot n with
  | some i => if 0 < i ∧ i < n.length - 1 then ⟨n.take i⟩ else ⟨n⟩
  | none => ⟨n⟩
where
  /-- Index of the last `.` in the list, if any. -/
  rfindDot : List Char → Option Nat
    | [] => none
    | a :: rest =>
      match rfindDot rest with
      | some i => some (i + 1)
      | none => if a = '.' then some 0 else none

/-- Embedding of source line 128:
`name = filename or (Path(img_src).name if not img_src.startswith("http") else "image.jpg")`. -/
def deriveFileName (filename : Option String) (img_src : String) : String :=
  orElseStr filename
    (if !(pyStartsWith img_src "http") then pathName img_src else "image.jpg")

/-- Embedding of source line 137: keep the name when its lowercase form ends
in `.jpg`/`.jpeg`, else replace its extension with `.jpg` via `Path(name).stem`. -/
def forceJpgName (name : String) : String :=
  if pyEndsWith (pyLower name) ".jpg" || pyEndsWith (pyLower name) ".jpeg" then name
  else pathStem name ++ ".jpg"

/-! ### Contact loading (source lines 66-92, from the parsed-cell level) -/

/-- A validated contact record. -/
structure Contact where
  nome : String
  telefone : String
deriving Repr, DecidableEq

/-- Header-cell normalization of source line 76:
`(h or "").strip().lower().replace("﻿", "")`. -/
def normHeaderCell (h : String) : String :=
  ⟨((pyStrip h).data.map Char.toLower).filter (fun c => c ≠ '﻿')⟩

/-- Phone-column aliases of source line 78. -/
def phoneAliases : List String :=
  ["telefone", "celular", "celular.1", "fone", "phone", "number"]

/-- Name-column aliases of source line 83. -/
def nameAliases : List String := ["nome", "name"]

/-- Per-row body of the loader loop (source lines 85-91): skip blank rows,
read the phone cell when in range (else `""`), normalize it, read the name
cell when present and in range, and emit a contact only when the normalized
phone is non-empty. -/
def rowContact (idxTel : Nat) (idxNome : Option Nat) (line : List String) : Option Contact :=
  if line.any (fun c => c ≠ "") then
    let telefone := normalize_phone (if idxTel < line.length then line.getD idxTel "" else "")
    let nome := match idxNome with
      | some i => if i < line.length then pyStrip (line.getD i "") else ""
      | none => ""
    if telefone ≠ "" then some ⟨nome, telefone⟩ else none
  else none

/-- The loader loop of source lines 85-92, appending accepted rows in input
order. -/
def loadRows (idxTel : Nat) (idxNome : Option Nat) : List (List String) → List Contact
  | [] => []
  | line :: rest =>
    match rowContact idxTel idxNome line with
    | some c => c :: loadRows idxTel idxNome rest
    | none => loadRows idxTel idxNome rest

/-- Embedding of `load_contacts_csv` (source lines 66-92), from the point
where the delimiter has been sniffed and the file split into header cells
and data rows.  Fails when no phone alias matches a header cell. -/
def load_contacts_csv (header : List String) (rows : List (List String)) :
    Except String (List Contact) :=
  let hdr := header.map normHeaderCell
  match hdr.findIdx? (fun h => phoneAliases.contains h) with
  | none => .error "Header não tem coluna de telefone"
  | some idxTel =>
    let idxNome := hdr.findIdx? (fun h => nameAliases.contains h)
    .ok (loadRows idxTel idxNome rows)

/-! ### Result ledger (source lines 64 and 94-106) -/

/-- One physical line of the ledger file: the header row or a record row
(the `detalhe` cell already JSON-encoded, source line 105). -/
inductive LedgerLine where
  | header
  | record (linha : Nat) (telefone status : String) (http : Nat) (detalhe : String)
deriving Repr, DecidableEq

/-- Ledger file state: whether the path exists on disk (`os.path.exists`)
and its lines. -/
structure LedgerState where
  onDisk : Bool
  lines : List LedgerLine
deriving Repr, DecidableEq

/-- One per-contact dispatch outcome, as written by the main loop
(lines 191 and 195): 1-based index, phone, `ENVIADO`/`FALHA`, HTTP code and
the structured detail object. -/
structure OutcomeRow where
  linha : Nat
  telefone : String
  status : String
  http : Nat
  detalhe : Json

/-- The record line written for an outcome: `detalhe` serialized as compact
JSON (source line 105). -/
def recordLine (r : OutcomeRow) : LedgerLine :=
  .record r.linha r.telefone r.status r.http (Json.dumps r.detalhe)

/-- Embedding of `append_row` (source lines 94-106): capture existence,
open in append mode (which creates the file), write the header when the
file did not exist or is empty, then write exactly one record row. -/
def append_row (st : LedgerState) (r : OutcomeRow) : LedgerState :=
  let file_exists := st.onDisk
  let withHeader :=
    if !file_exists || st.lines.isEmpty then st.lines ++ [.header] else st.lines
  { onDisk := true, lines := withHeader ++ [recordLine r] }

/-- Number of header lines in a ledger. -/
def countHeaders (ls : List LedgerLine) : Nat :=
  ls.countP (fun l => match l with | .header => true | _ => false)

/-- Number of record lines in a ledger. -/
def countRecords (ls : List LedgerLine) : Nat :=
  ls.countP (fun l => match l with | .record _ _ _ _ _ => true | _ => false)

/-! ### Sender (source lines 109-152) and main loop (source lines 155-198) -/

/-- The `file` object of the request body (source lines 134-138). -/
structure FilePart where
  base64Data : String
  mimetype : String
  name : String
deriving Repr, DecidableEq

/-- The JSON request body of source lines 130-139. -/
structure Payload where
  text : String
  number : String
  serviceId : String
  file : FilePart
deriving Repr, DecidableEq

/-- Failures of `read_image_bytes` (source lines 31-39): a missing local
file, a non-2xx image fetch (the `requests.HTTPError` raised by
`raise_for_status` keeps its response and status), or a transport failure
with no response. -/
inductive AcquireErr where
  | notFound (msg : String)
  | fetchHttp (status : Nat) (msg : String)
  | fetchTransport (msg : String)
deriving Repr, DecidableEq

/-- Exceptions escaping `send_image_with_caption_base64`, as seen by the
main loop's handler.  Only `acquireErr (.fetchHttp ..)` carries a response
object: the `ValueError` of line 125 has none, and the `HTTPError`
re-raised at line 151 is constructed from a message alone, dropping the
response. -/
inductive SendErr where
  | acquireErr (e : AcquireErr)
  | payloadTooLarge (nbytes : Nat)
  | httpError (msg : String)
  | transportError (msg : String)
deriving Repr, DecidableEq

/-- Model of line 194, `getattr(getattr(e, "response", None), "status_code", 0) or 0`:
the only exception still holding a response is the image-fetch `HTTPError`. -/
def excCode : SendErr → Nat
  | .acquireErr (.fetchHttp st _) => st
  | _ => 0

/-- Model of Python `str(e)` for each exception (the messages built at
source lines 38, 125 and 151, or carried by the library exception). -/
def errStr : SendErr → String
  | .acquireErr (.notFound msg) => msg
  | .acquireErr (.fetchHttp _ msg) => msg
  | .acquireErr (.fetchTransport msg) => msg
  | .payloadTooLarge n => "Arquivo > 63MB (" ++ toString n ++ " bytes)"
  | .httpError msg => msg
  | .transportError msg => msg

/-- A gateway response to the POST: either a response with status, reason,
body text and parsed JSON body, or a transport failure with no response. -/
inductive HttpResp where
  | resp (status : Nat) (reason : String) (body : String) (json : Json)
  | transportFail (msg : String)

/-- Observable events of one run, used to state how often the image is
acquired and what is POSTed. -/
inductive Ev where
  | acquire (src : String)
  | post (url : String) (payload : Payload)
deriving Repr, DecidableEq

/-- The external world: what `read_image_bytes` yields for a source, what
Pillow's `ensure_jpeg_bytes` does to the bytes (total, since the source
swallows every decode error and returns the original bytes), and how the
gateway answers a POST of a payload to a URL. -/
structure World where
  acquire : String → Except AcquireErr Bytes
  ensureJpeg : Bytes → Bytes
  gateway : String → Payload → HttpResp

/-- The message text of `requests.raise_for_status` for a 4xx/5xx status. -/
def raiseForStatusMsg (status : Nat) (reason url : String) : String :=
  if status < 500 then
    toString status ++ " Client Error: " ++ reason ++ " for url: " ++ url
  else
    toString status ++ " Server Error: " ++ reason ++ " for url: " ++ url

/-- Embedding of `send_image_with_caption_base64` (source lines 109-152):
acquire the image, normalize to JPEG, enforce the 63 MiB ceiling, base64
encode, derive the file name, build the request body and POST it; a 4xx/5xx
response is re-raised as an `HTTPError` whose message appends the first 800
characters of the body and which carries no response object.  Returns the
emitted events together with the parsed response body or the exception. -/
def send_image_with_caption_base64 (w : World)
    (api_base_v1 token number service_id text img_src : String)
    (filename : Option String) : List Ev × Except SendErr Json :=
  match w.acquire img_src with
  | .error e => ([.acquire img_src], .error (.acquireErr e))
  | .ok raw =>
    let jpg := w.ensureJpeg raw
    if jpg.length > 63 * 1024 * 1024 then
      ([.acquire img_src], .error (.payloadTooLarge jpg.length))
    else
      let b64 := to_base64 jpg
      let name := deriveFileName filename img_src
      let payload : Payload :=
        { text := pyStrip text
          number := number
          serviceId := service_id
          file :=
            { base64Data := b64
              mimetype := "image/jpeg"
              name := forceJpgName name } }
      let url := rstripSlash api_base_v1 ++ "/messages"
      match w.gateway url payload with
      | .transportFail msg =>
        ([.acquire img_src, .post url payload], .error (.transportError msg))
      | .resp st reason body js =>
        if 400 ≤ st ∧ st < 600 then
          ([.acquire img_src, .post url payload],
           .error (.httpError (raiseForStatusMsg st reason url ++ " | body=" ++ strTake 800 body)))
        else
          ([.acquire img_src, .post url payload], .ok js)
  -- the `token` argument only feeds the Authorization header, which has no
  -- observable effect inside the model beyond reaching the gateway
  -- (absorbed into `World.gateway`)

/-- The configuration bundle read by `main` (source lines 163-168): the
validated string settings plus the raw optional environment values backing
`MESSAGE_TEMPLATE` / `MESSAGE_TEXT`. -/
structure MainEnv where
  apiV1 : String
  token : String
  srvid : String
  image : String
  messageTemplate : Option String
  messageText : Option String

/-- Source line 167: `TEXT = (os.getenv("MESSAGE_TEMPLATE") or os.getenv("MESSAGE_TEXT") or "").strip()`. -/
def mainTEXT (mt mtext : Option String) : String :=
  pyStrip (orElseStr mt (orElseStr mtext ""))

/-- One iteration of the main loop (source lines 187-196) at 1-based index
`i`: dispatch, then build the `ENVIADO` outcome with code 200 and detail
`{"resp": resp}`, or the `FALHA` outcome with the extracted code and detail
`{"erro": str(e)}`. -/
def runStep (w : World) (env : MainEnv) (text : String) (i : Nat) (c : Contact) :
    List Ev × OutcomeRow :=
  match send_image_with_caption_base64 w env.apiV1 env.token c.telefone env.srvid
      text env.image none with
  | (evs, .ok resp) => (evs, ⟨i, c.telefone, "ENVIADO", 200, Json.obj [("resp", resp)]⟩)
  | (evs, .error e) =>
    (evs, ⟨i, c.telefone, "FALHA", excCode e, Json.obj [("erro", Json.str (errStr e))]⟩)

/-- The main loop from index `i` on: events and outcomes, in order. -/
def runFrom (w : World) (env : MainEnv) (text : String) :
    Nat → List Contact → List Ev × List OutcomeRow
  | _, [] => ([], [])
  | i, c :: rest =>
    ((runStep w env text i c).1 ++ (runFrom w env text (i + 1) rest).1,
     (runStep w env text i c).2 :: (runFrom w env text (i + 1) rest).2)

/-- The whole batch (source lines 187-196): the text is computed once from
the environment, then every contact is dispatched with index starting
at 1. -/
def runBatch (w : World) (env : MainEnv) (contacts : List Contact) :
    List Ev × List OutcomeRow :=
  runFrom w env (mainTEXT env.messageTemplate env.messageText) 1 contacts

/-- The ledger contents after a run: each outcome appended in order
(source lines 191 and 195). -/
def runLedger (st : LedgerState) (rows : List OutcomeRow) : LedgerState :=
  rows.foldl append_row st

/-- Whether an event is an image acquisition. -/
def isAcquireEv : Ev → Bool
  | .acquire _ => true
  | .post _ _ => false

/-- Number of image acquisitions in an event trace. -/
def countAcquire (evs : List Ev) : Nat := evs.countP isAcquireEv

/-- The text fields of all POSTed request bodies in a trace. -/
def postTexts (evs : List Ev) : List String :=
  evs.filterMap (fun e => match e with | .post _ p => some p.text | _ => none)

/-! ### Concrete scenario data used by the claim theorems below -/

/-- Spec-side restatement of claim C4's description of `normalize`: strip
all non-digit characters, then strip leading zeros, then prepend `"55"`
exactly when at least 10 digits remain and the string does not already
begin with `"55"`.  (The claim's wording omits the source's whitespace
pre-strip, which is a no-op before the digit filter.) -/
def normalizeSpec (raw : String) : String :=
  let s1 := raw.data.filter Char.isDigit
  let s2 := s1.dropWhile (fun c => c = '0')
  if 10 ≤ s2.length && !(List.isPrefixOf ['5', '5'] s2) then ⟨'5' :: '5' :: s2⟩ else ⟨s2⟩

/-- Oversized image bytes: one more than the 63 MiB limit. -/
def bigBytesC1 : Bytes := List.replicate (63 * 1024 * 1024 + 1) 0

/-- World for the C1 scenario: the image source yields 66,060,289 bytes
that Pillow passes through unchanged; the gateway would answer 200. -/
def worldC1 : World :=
  { acquire := fun _ => .ok bigBytesC1
    ensureJpeg := fun b => b
    gateway := fun _ _ => .resp 200 "OK" "" Json.null }

/-- Environment for the C1 scenario. -/
def envC1 : MainEnv :=
  ⟨"https://h.example/api/v1", "tok", "svc", "banner.jpg", some "hello", none⟩

/-- World for the C2 scenario: a 3-byte image and a gateway that accepts
every message. -/
def worldC2 : World :=
  { acquire := fun _ => .ok [1, 2, 3]
    ensureJpeg := fun b => b
    gateway := fun _ _ => .resp 200 "OK" "" Json.null }

/-- Environment for the C2 scenario. -/
def envC2 : MainEnv :=
  ⟨"https://h.example/api/v1", "tok", "svc", "banner.jpg", some "hello", none⟩

/-- World for the C10 witness scenario. -/
def worldC10 : World :=
  { acquire := fun _ => .ok [1, 2, 3]
    ensureJpeg := fun b => b
    gateway := fun _ _ => .resp 200 "OK" "" Json.null }

/-- Environment for the C10 witness scenario: a padded template. -/
def envC10 : MainEnv :=
  ⟨"https://h.example/api/v1", "tok", "svc", "banner.jpg", some "  oi  ", none⟩

/-- World for the C5 scenario: every dispatch succeeds. -/
def worldC5 : World :=
  { acquire := fun _ => .ok [1, 2, 3]
    ensureJpeg := fun b => b
    gateway := fun _ _ => .resp 200 "OK" "" Json.null }

/-- Environment for the C5 scenario. -/
def envC5 : MainEnv :=
  ⟨"https://h.example/api/v1", "tok", "svc", "banner.jpg", some "oi", none⟩

/-- Response body of the C3 scenario. -/
def bodyC3 : String := "\x7b\"error\":\"invalid number\"\x7d"

/-- World for the C3 scenario: the gateway answers every POST with
HTTP 422. -/
def worldC3 : World :=
  { acquire := fun _ => .ok [1, 2, 3]
    ensureJpeg := fun b => b
    gateway := fun _ _ => .resp 422 "Unprocessable Entity" bodyC3 Json.null }

/-- Environment for the C3 scenario. -/
def envC3 : MainEnv :=
  ⟨"https://h.example/api/v1", "tok", "svc", "banner.jpg", some "oi", none⟩

/-- The message of the re-raised `HTTPError` in the C3 scenario. -/
def msgC3 : String :=
  "422 Client Error: Unprocessable Entity for url: https://h.example/api/v1/messages | body="
    ++ bodyC3

/-- A successful outcome used in the C6 witness. -/
def outcomeC6a : OutcomeRow := ⟨1, "5511999990000", "ENVIADO", 200, Json.obj [("resp", Json.null)]⟩

/-- A failed outcome used in the C6 witness. -/
def outcomeC6b : OutcomeRow := ⟨2, "5511888880000", "FALHA", 0, Json.obj [("erro", Json.str "x")]⟩

/-- World for the C7 counterexample scenario. -/
def worldC7 : World :=
  { acquire := fun _ => .ok [1, 2, 3]
    ensureJpeg := fun b => b
    gateway := fun _ _ => .resp 200 "OK" "" Json.null }

/-- Environment for the C7 witness run. -/
def envC7w : MainEnv :=
  ⟨"https://h.example/api/v1", "tok", "svc", "banner.jpg", some "oi", none⟩

/-- The payload POSTed in the C7 witness run. -/
def pC7 : Payload :=
  ⟨"oi", "5511999990000", "svc", ⟨"AQID", "image/jpeg", "banner.jpg"⟩⟩

/-- Parsed response body of the C8 counterexample. -/
def respC8 : Json := Json.obj [("id", Json.str "1")]

/-- World for the C8 counterexample: the gateway answers 200 with body
`{"id":"1"}`. -/
def worldC8 : World :=
  { acquire := fun _ => .ok [1, 2, 3]
    ensureJpeg := fun b => b
    gateway := fun _ _ => .resp 200 "OK" "\x7b\"id\":\"1\"\x7d" respC8 }

/-- Environment for the C8 counterexample. -/
def envC8 : MainEnv :=
  ⟨"https://h.example/api/v1", "tok", "svc", "banner.jpg", some "oi", none⟩

/-! ### Lemmas about the string primitives -/

theorem isDigit_eq_false_of_pyIsSpace {c : Char} (h : pyIsSpace c = true) :
    c.isDigit = false := by
  simp only [pyIsSpace, Bool.or_eq_true, decide_eq_true_eq] at h
  rcases h with ((((h | h) | h) | h) | h) | h <;> subst h <;> decide

theorem pyIsSpace_eq_false_of_isDigit {c : Char} (h : c.isDigit = true) :
    pyIsSpace c = false := by
  cases hs : pyIsSpace c with
  | false => rfl
  | true => rw [isDigit_eq_false_of_pyIsSpace hs] at h; cases h

theorem dropWhile_eq_self_of_all {α : Type} {p : α → Bool} {l : List α}
    (h : ∀ c ∈ l, p c = false) : l.dropWhile p = l := by
  cases l with
  | nil => rfl
  | cons a t =>
    exact List.dropWhile_cons_of_neg (by simp [h a (List.mem_cons_self a t)])

theorem dropWhile_head_not {α : Type} {p : α → Bool} {l t : List α} {a : α}
    (h : l.dropWhile p = a :: t) : p a = false := by
  induction l with
  | nil => cases h
  | cons b bs ih =>
    by_cases hb : p b = true
    · rw [List.dropWhile_cons_of_pos hb] at h; exact ih h
    · rw [List.dropWhile_cons_of_neg hb] at h
      injection h with h1 _
      subst h1
      simpa using hb

theorem dropWhile_idem {α : Type} {p : α → Bool} {l : List α} :
    (l.dropWhile p).dropWhile p = l.dropWhile p := by
  cases h : l.dropWhile p with
  | nil => rfl
  | cons a t =>
    exact List.dropWhile_cons_of_neg (by simp [dropWhile_head_not h])

theorem filter_dropWhile_pyIsSpace (l : List Char) :
    (l.dropWhile pyIsSpace).filter Char.isDigit = l.filter Char.isDigit := by
  conv_rhs => rw [← List.takeWhile_append_dropWhile pyIsSpace l]
  rw [List.filter_append]
  have hnil : (l.takeWhile pyIsSpace).filter Char.isDigit = [] := by
    rw [List.filter_eq_nil_iff]
    intro c hc
    simp [isDigit_eq_false_of_pyIsSpace (List.mem_takeWhile_imp hc)]
  rw [hnil, List.nil_append]

/-- Stripping surrounding whitespace does not change the digit content. -/
theorem filter_isDigit_pyStripL (l : List Char) :
    (pyStripL l).filter Char.isDigit = l.filter Char.isDigit := by
  unfold pyStripL
  rw [List.filter_reverse, filter_dropWhile_pyIsSpace, List.filter_reverse,
    List.reverse_reverse, filter_dropWhile_pyIsSpace]

/-- A list with no whitespace anywhere is untouched by `pyStripL`. -/
theorem pyStripL_eq_self_of_no_space {l : List Char}
    (h : ∀ c ∈ l, pyIsSpace c = false) : pyStripL l = l := by
  unfold pyStripL
  rw [dropWhile_eq_self_of_all h,
    dropWhile_eq_self_of_all (fun c hc => h c (List.mem_reverse.mp hc)),
    List.reverse_reverse]

/-- A stripped list does not start with a strippable character, so stripping
it again from the left is a no-op. -/
theorem dropWhile_pyStripL {α : Type} (p : α → Bool) (l : List α) :
    (((l.dropWhile p).reverse.dropWhile p).reverse).dropWhile p
      = ((l.dropWhile p).reverse.dropWhile p).reverse := by
  cases hmr : ((l.dropWhile p).reverse.dropWhile p).reverse with
  | nil => rfl
  | cons a s =>
    have hsuf : (l.dropWhile p).reverse.dropWhile p <:+ (l.dropWhile p).reverse :=
      List.dropWhile_suffix p
    have hpre : ((l.dropWhile p).reverse.dropWhile p).reverse <+: l.dropWhile p := by
      have h2 := List.reverse_prefix.mpr hsuf
      rwa [List.reverse_reverse] at h2
    obtain ⟨t, ht⟩ := hpre
    rw [hmr, List.cons_append] at ht
    have ha : p a = false := dropWhile_head_not ht.symm
    exact List.dropWhile_cons_of_neg (by simp [ha])

/-- Python `str.strip()` is idempotent. -/
theorem pyStripL_idem (l : List Char) : pyStripL (pyStripL l) = pyStripL l := by
  have h1 : (pyStripL l).dropWhile pyIsSpace = pyStripL l :=
    dropWhile_pyStripL pyIsSpace l
  show (((pyStripL l).dropWhile pyIsSpace).reverse.dropWhile pyIsSpace).reverse = pyStripL l
  rw [h1]
  show ((((l.dropWhile pyIsSpace).reverse.dropWhile pyIsSpace).reverse).reverse.dropWhile
      pyIsSpace).reverse = pyStripL l
  rw [List.reverse_reverse, dropWhile_idem]
  rfl

theorem pyStrip_idem (s : String) : pyStrip (pyStrip s) = pyStrip s := by
  unfold pyStrip
  exact congrArg String.mk (pyStripL_idem s.data)

/-! ### Lemmas about `normalize_phone` -/

theorem mem_of_mem_dropWhile {α : Type} {p : α → Bool} {l : List α} {a : α}
    (h : a ∈ l.dropWhile p) : a ∈ l :=
  (List.dropWhile_suffix p).mem h

/-- The shape `normAux` takes on an input that is all digits and free of
leading zeros: only the `"55"`-prefix branch remains. -/
theorem normAux_fixed {e : List Char} (hdig : ∀ c ∈ e, c.isDigit = true)
    (hdrop : e.dropWhile (fun c => c = '0') = e) :
    normAux e =
      if 10 ≤ e.length && !(List.isPrefixOf ['5', '5'] e) then '5' :: '5' :: e else e := by
  simp only [normAux]
  rw [pyStripL_eq_self_of_no_space (fun c hc => pyIsSpace_eq_false_of_isDigit (hdig c hc)),
    List.filter_eq_self.mpr hdig, hdrop]

theorem normAux_idem (l : List Char) : normAux (normAux l) = normAux l := by
  have hN : normAux l =
      if 10 ≤ (((pyStripL l).filter Char.isDigit).dropWhile (fun c => c = '0')).length &&
          !(List.isPrefixOf ['5', '5']
              (((pyStripL l).filter Char.isDigit).dropWhile (fun c => c = '0'))) then
        '5' :: '5' :: ((pyStripL l).filter Char.isDigit).dropWhile (fun c => c = '0')
      else ((pyStripL l).filter Char.isDigit).dropWhile (fun c => c = '0') := rfl
  rw [hN]
  generalize hd : ((pyStripL l).filter Char.isDigit).dropWhile (fun c => c = '0') = d
  have hdig : ∀ c ∈ d, c.isDigit = true := by
    intro c hc
    rw [← hd] at hc
    exact (List.mem_filter.mp (mem_of_mem_dropWhile hc)).2
  have hdrop : d.dropWhile (fun c => c = '0') = d := by
    rw [← hd]; exact dropWhile_idem
  by_cases hc : (10 ≤ d.length && !(List.isPrefixOf ['5', '5'] d)) = true
  · rw [if_pos hc]
    have hdig5 : ∀ c ∈ ('5' :: '5' :: d), c.isDigit = true := by
      intro c hcm
      rcases List.mem_cons.mp hcm with rfl | hcm
      · decide
      rcases List.mem_cons.mp hcm with rfl | hcm
      · decide
      exact hdig c hcm
    have hdrop5 : ('5' :: '5' :: d).dropWhile (fun c => c = '0') = '5' :: '5' :: d :=
      List.dropWhile_cons_of_neg (by decide)
    rw [normAux_fixed hdig5 hdrop5]
    have hpre : List.isPrefixOf ['5', '5'] ('5' :: '5' :: d) = true := by
      simp [List.isPrefixOf]
    rw [if_neg (by simp [hpre])]
  · rw [if_neg hc, normAux_fixed hdig hdrop, if_neg hc]

/-- Claim C9 — `normalize` is idempotent: for every input string `s`,
`normalize(normalize(s)) = normalize(s)`. -/
theorem C9_normalize_idempotent (s : String) :
    normalize_phone (normalize_phone s) = normalize_phone s := by
  show (⟨normAux (normAux s.data)⟩ : String) = ⟨normAux s.data⟩
  exact congrArg String.mk (normAux_idem s.data)

/-- Claim C4 — `normalize` strips all non-digits, then leading zeros, then
prepends `"55"` exactly when at least 10 digits remain and no `"55"` prefix
is present; the three quoted evaluations hold, and the function is total
(it is a Lean function into `String`, so it always returns without
raising). -/
theorem C4_normalize_spec :
    (∀ s : String, normalize_phone s = normalizeSpec s) ∧
    normalize_phone "0031999998888" = "5531999998888" ∧
    normalize_phone "+55 11 91234-5678" = "5511912345678" ∧
    normalize_phone "abc" = "" := by
  refine ⟨fun s => ?_, by decide, by decide, by decide⟩
  show (⟨normAux s.data⟩ : String) = normalizeSpec s
  simp only [normAux, normalizeSpec]
  rw [filter_isDigit_pyStripL]
  exact apply_ite String.mk _ _ _

/-! ### Lemmas about the sender and the main loop -/

/-- Shape of the event trace of one send: either the acquisition alone (the
send failed before the POST) or the acquisition followed by exactly one
POST whose payload fields are as built at source lines 130-139. -/
theorem send_events_shape (w : World) (a tok n sid txt src : String) (fn : Option String) :
    (send_image_with_caption_base64 w a tok n sid txt src fn).1 = [.acquire src] ∨
    ∃ p : Payload,
      (send_image_with_caption_base64 w a tok n sid txt src fn).1 =
        [.acquire src, .post (rstripSlash a ++ "/messages") p] ∧
      p.text = pyStrip txt ∧ p.number = n ∧ p.serviceId = sid ∧
      p.file.mimetype = "image/jpeg" ∧ p.file.name = forceJpgName (deriveFileName fn src) := by
  unfold send_image_with_caption_base64
  split
  · exact Or.inl rfl
  · dsimp only
    split
    · exact Or.inl rfl
    · split
      · exact Or.inr ⟨_, rfl, rfl, rfl, rfl, rfl, rfl⟩
      · split
        · exact Or.inr ⟨_, rfl, rfl, rfl, rfl, rfl, rfl⟩
        · exact Or.inr ⟨_, rfl, rfl, rfl, rfl, rfl, rfl⟩

/-- Every send acquires (and hence re-reads and re-encodes) the image
exactly once. -/
theorem countAcquire_send (w : World) (a tok n sid txt src : String) (fn : Option String) :
    countAcquire (send_image_with_caption_base64 w a tok n sid txt src fn).1 = 1 := by
  rcases send_events_shape w a tok n sid txt src fn with hsh | ⟨p, hev, _⟩
  · rw [hsh]; rfl
  · rw [hev]; rfl

/-- The text of any POSTed payload is the stripped `text` argument. -/
theorem postTexts_send (w : World) (a tok n sid txt src : String) (fn : Option String) :
    postTexts (send_image_with_caption_base64 w a tok n sid txt src fn).1 = [] ∨
    postTexts (send_image_with_caption_base64 w a tok n sid txt src fn).1 = [pyStrip txt] := by
  rcases send_events_shape w a tok n sid txt src fn with hsh | ⟨p, hev, ht, _⟩
  · left; rw [hsh]; rfl
  · right
    rw [hev]
    show [p.text] = [pyStrip txt]
    rw [ht]

/-- The events of one loop iteration are the events of its send. -/
theorem runStep_events (w : World) (env : MainEnv) (text : String) (i : Nat) (c : Contact) :
    (runStep w env text i c).1 =
      (send_image_with_caption_base64 w env.apiV1 env.token c.telefone env.srvid
        text env.image none).1 := by
  unfold runStep
  rcases hs : send_image_with_caption_base64 w env.apiV1 env.token c.telefone env.srvid
      text env.image none with ⟨evs, res⟩
  cases res <;> rfl

/-- The outcome of iteration `i` carries row index `i`. -/
theorem runStep_linha (w : World) (env : MainEnv) (text : String) (i : Nat) (c : Contact) :
    (runStep w env text i c).2.linha = i := by
  unfold runStep
  rcases hs : send_image_with_caption_base64 w env.apiV1 env.token c.telefone env.srvid
      text env.image none with ⟨evs, res⟩
  cases res <;> rfl

theorem runFrom_length (w : World) (env : MainEnv) (text : String) :
    ∀ (cs : List Contact) (i : Nat), ((runFrom w env text i cs).2).length = cs.length := by
  intro cs
  induction cs with
  | nil => intro i; rfl
  | cons c rest ih =>
    intro i
    show ((runStep w env text i c).2 :: (runFrom w env text (i + 1) rest).2).length = _
    rw [List.length_cons, ih (i + 1), List.length_cons]

theorem runFrom_linha (w : World) (env : MainEnv) (text : String) :
    ∀ (cs : List Contact) (i j : Nat) (h : j < ((runFrom w env text i cs).2).length),
      (((runFrom w env text i cs).2).get ⟨j, h⟩).linha = i + j := by
  intro cs
  induction cs with
  | nil => intro i j h; rw [runFrom_length] at h; cases h
  | cons c rest ih =>
    intro i j h
    match j with
    | 0 => exact runStep_linha w env text i c
    | Nat.succ j2 =>
      have h2 : j2 < ((runFrom w env text (i + 1) rest).2).length := by
        rw [runFrom_length]
        rw [runFrom_length, List.length_cons] at h
        omega
      have := ih (i + 1) j2 h2
      show (((runFrom w env text (i + 1) rest).2).get ⟨j2, _⟩).linha = i + (j2 + 1)
      rw [this]
      omega

theorem countAcquire_runFrom (w : World) (env : MainEnv) (text : String) :
    ∀ (cs : List Contact) (i : Nat), countAcquire (runFrom w env text i cs).1 = cs.length := by
  intro cs
  induction cs with
  | nil => intro i; rfl
  | cons c rest ih =>
    intro i
    show countAcquire ((runStep w env text i c).1 ++ (runFrom w env text (i + 1) rest).1) = _
    unfold countAcquire
    rw [List.countP_append]
    have h1 := countAcquire_send w env.apiV1 env.token c.telefone env.srvid text env.image none
    rw [← runStep_events w env text i c] at h1
    unfold countAcquire at h1
    rw [h1, List.length_cons]
    have h2 := ih (i + 1)
    unfold countAcquire at h2
    rw [h2]
    omega

theorem postTexts_append (a b : List Ev) : postTexts (a ++ b) = postTexts a ++ postTexts b :=
  List.filterMap_append a b _

theorem postTexts_runFrom (w : World) (env : MainEnv) (text : String) :
    ∀ (cs : List Contact) (i : Nat) (t : String),
      t ∈ postTexts (runFrom w env text i cs).1 → t = pyStrip text := by
  intro cs
  induction cs with
  | nil => intro i t h; cases h
  | cons c rest ih =>
    intro i t h
    have hruns : (runFrom w env text i (c :: rest)).1 =
        (runStep w env text i c).1 ++ (runFrom w env text (i + 1) rest).1 := rfl
    rw [hruns, postTexts_append] at h
    rcases List.mem_append.mp h with h1 | h2
    · rw [runStep_events w env text i c] at h1
      rcases postTexts_send w env.apiV1 env.token c.telefone env.srvid text env.image none
        with he | he
      · rw [he] at h1; cases h1
      · rw [he] at h1
        exact List.mem_singleton.mp h1
    · exact ih (i + 1) t h2

/-- When the normalized image bytes exceed the 63 MiB ceiling, the send
raises `PayloadTooLarge` right after acquisition: no POST is attempted. -/
theorem send_tooLarge {w : World} {src : String} {raw : Bytes}
    (hacq : w.acquire src = Except.ok raw)
    (hlen : (w.ensureJpeg raw).length > 63 * 1024 * 1024)
    (a tok n sid txt : String) (fn : Option String) :
    send_image_with_caption_base64 w a tok n sid txt src fn =
      ([.acquire src], .error (.payloadTooLarge (w.ensureJpeg raw).length)) := by
  unfold send_image_with_caption_base64
  split
  next e heq => rw [hacq] at heq; cases heq
  next raw2 heq =>
    rw [hacq] at heq
    injection heq with h2
    subst h2
    dsimp only
    split
    next => rfl
    next hnot => exact absurd hlen hnot

/-- The main-loop iteration under an oversized payload: one acquisition,
no POST, and a `FALHA` outcome with HTTP code 0 naming the byte count. -/
theorem runStep_tooLarge {w : World} {env : MainEnv} {raw : Bytes}
    (hacq : w.acquire env.image = Except.ok raw)
    (hlen : (w.ensureJpeg raw).length > 63 * 1024 * 1024)
    (text : String) (i : Nat) (c : Contact) :
    runStep w env text i c =
      ([.acquire env.image],
       ⟨i, c.telefone, "FALHA", 0,
        Json.obj [("erro", Json.str ("Arquivo > 63MB (" ++
          toString (w.ensureJpeg raw).length ++ " bytes)"))]⟩) := by
  unfold runStep
  rw [send_tooLarge hacq hlen env.apiV1 env.token c.telefone env.srvid text none]
  rfl

theorem runFrom_tooLarge {w : World} {env : MainEnv} {raw : Bytes}
    (hacq : w.acquire env.image = Except.ok raw)
    (hlen : (w.ensureJpeg raw).length > 63 * 1024 * 1024) (text : String) :
    ∀ (cs : List Contact) (i : Nat),
      (runFrom w env text i cs).1.all isAcquireEv = true ∧
      ∀ r ∈ (runFrom w env text i cs).2, r.status = "FALHA" ∧ r.http = 0 := by
  intro cs
  induction cs with
  | nil => intro i; exact ⟨rfl, fun r hr => absurd hr (List.not_mem_nil r)⟩
  | cons c rest ih =>
    intro i
    have hstep := runStep_tooLarge hacq hlen text i c
    have hruns1 : (runFrom w env text i (c :: rest)).1 =
        (runStep w env text i c).1 ++ (runFrom w env text (i + 1) rest).1 := rfl
    have hruns2 : (runFrom w env text i (c :: rest)).2 =
        (runStep w env text i c).2 :: (runFrom w env text (i + 1) rest).2 := rfl
    constructor
    · rw [hruns1, hstep, List.all_append]
      exact Bool.and_eq_true _ _ |>.mpr ⟨rfl, (ih (i + 1)).1⟩
    · intro r hr
      rw [hruns2, hstep] at hr
      rcases List.mem_cons.mp hr with rfl | hr
      · exact ⟨rfl, rfl⟩
      · exact (ih (i + 1)).2 r hr

/-- Claim C1 (amended) — when the final encoded image bytes exceed
66,060,288 bytes, every contact's send fails with `PayloadTooLarge` before
any HTTP dispatch (the trace holds only acquisitions, no POST), so no
message is dispatched; but the batch is NOT aborted: the loop still
appends one `FALHA` outcome with `httpCode` 0 per contact and continues
through the whole contact list. -/
theorem C1_payload_too_large {w : World} {env : MainEnv} {raw : Bytes}
    (hacq : w.acquire env.image = Except.ok raw)
    (hlen : (w.ensureJpeg raw).length > 63 * 1024 * 1024) (cs : List Contact) :
    (runBatch w env cs).1.all isAcquireEv = true ∧
    (runBatch w env cs).2.length = cs.length ∧
    ∀ r ∈ (runBatch w env cs).2, r.status = "FALHA" ∧ r.http = 0 := by
  have h := runFrom_tooLarge hacq hlen (mainTEXT env.messageTemplate env.messageText) cs 1
  exact ⟨h.1, runFrom_length w env _ cs 1, h.2⟩

theorem bigBytesC1_large : (worldC1.ensureJpeg bigBytesC1).length > 63 * 1024 * 1024 := by
  show bigBytesC1.length > 63 * 1024 * 1024
  unfold bigBytesC1
  rw [List.length_replicate]
  omega

/-- Claim C1 counterexample — with final encoded bytes of 66,060,289
(> 66,060,288) and two contacts, the run is not aborted with nothing
appended: exactly two `DispatchOutcome` records are produced (and reach the
ledger), contradicting "no DispatchOutcome is ever appended in that run". -/
theorem C1_counterexample :
    (worldC1.ensureJpeg bigBytesC1).length > 63 * 1024 * 1024 ∧
    (runBatch worldC1 envC1 [⟨"A", "5511999990000"⟩, ⟨"B", "5511888880000"⟩]).2.length = 2 ∧
    countRecords (runLedger ⟨false, []⟩
      (runBatch worldC1 envC1 [⟨"A", "5511999990000"⟩, ⟨"B", "5511888880000"⟩]).2).lines = 2 := by
  refine ⟨bigBytesC1_large, runFrom_length worldC1 envC1 _ _ 1, ?_⟩
  have h1 := @runStep_tooLarge worldC1 envC1 bigBytesC1 rfl
    bigBytesC1_large (mainTEXT envC1.messageTemplate envC1.messageText) 1
    ⟨"A", "5511999990000"⟩
  have h2 := @runStep_tooLarge worldC1 envC1 bigBytesC1 rfl
    bigBytesC1_large (mainTEXT envC1.messageTemplate envC1.messageText) 2
    ⟨"B", "5511888880000"⟩
  have hrows : (runBatch worldC1 envC1 [⟨"A", "5511999990000"⟩, ⟨"B", "5511888880000"⟩]).2 =
      [(runStep worldC1 envC1 (mainTEXT envC1.messageTemplate envC1.messageText) 1
          ⟨"A", "5511999990000"⟩).2,
       (runStep worldC1 envC1 (mainTEXT envC1.messageTemplate envC1.messageText) 2
          ⟨"B", "5511888880000"⟩).2] := rfl
  rw [hrows, h1, h2]
  rfl

/-- Witness for C1 (amended) at a concrete oversized run. -/
theorem C1_payload_too_large_witness :
    (worldC1.ensureJpeg bigBytesC1).length > 63 * 1024 * 1024 ∧
    (∀ r ∈ (runBatch worldC1 envC1 [⟨"A", "5511999990000"⟩]).2,
      r.status = "FALHA" ∧ r.http = 0) :=
  ⟨bigBytesC1_large, (C1_payload_too_large rfl bigBytesC1_large _).2.2⟩

/-- Claim C2 (amended) — the image payload is not cached: the batch
acquires (and re-normalizes and re-encodes) the image once per contact, so
a run over `n` contacts performs exactly `n` acquisitions. -/
theorem C2_payload_rebuilt_per_contact (w : World) (env : MainEnv) (cs : List Contact) :
    countAcquire (runBatch w env cs).1 = cs.length :=
  countAcquire_runFrom w env (mainTEXT env.messageTemplate env.messageText) cs 1

/-- Claim C2 counterexample — in a successful run over two contacts the
image is acquired and encoded twice, not "exactly once per batch
invocation": acquisition is repeated per contact. -/
theorem C2_counterexample :
    countAcquire (runBatch worldC2 envC2
      [⟨"A", "5511999990000"⟩, ⟨"B", "5511888880000"⟩]).1 = 2 ∧ (2 : Nat) ≠ 1 := by
  exact ⟨rfl, by omega⟩

/-- Claim C10 — for every dispatch, the `text` field of the JSON request
body is the configured message template (the `MESSAGE_TEMPLATE` value, with
`MESSAGE_TEXT` as fallback) with leading and trailing whitespace stripped,
the empty string when both are missing, and it is identical for every
contact in the run. -/
theorem C10_text_field :
    (∀ (w : World) (env : MainEnv) (cs : List Contact) (t : String),
        t ∈ postTexts (runBatch w env cs).1 →
        t = pyStrip (orElseStr env.messageTemplate (orElseStr env.messageText ""))) ∧
    (∀ (w : World) (env : MainEnv) (cs : List Contact) (t1 t2 : String),
        t1 ∈ postTexts (runBatch w env cs).1 → t2 ∈ postTexts (runBatch w env cs).1 →
        t1 = t2) ∧
    mainTEXT none none = "" := by
  have key : ∀ (w : World) (env : MainEnv) (cs : List Contact) (t : String),
      t ∈ postTexts (runBatch w env cs).1 →
      t = pyStrip (orElseStr env.messageTemplate (orElseStr env.messageText "")) := by
    intro w env cs t h
    have h1 := postTexts_runFrom w env (mainTEXT env.messageTemplate env.messageText) cs 1 t h
    rw [h1]
    exact pyStrip_idem _
  exact ⟨key,
    fun w env cs t1 t2 h1 h2 => (key w env cs t1 h1).trans (key w env cs t2 h2).symm,
    rfl⟩

/-- Witness for C10 at a concrete run: the one POSTed text is the stripped
template. -/
theorem C10_text_field_witness :
    ("oi" ∈ postTexts (runBatch worldC10 envC10 [⟨"A", "5511999990000"⟩]).1) ∧
    "oi" = pyStrip (orElseStr envC10.messageTemplate (orElseStr envC10.messageText "")) :=
  ⟨by decide, C10_text_field.1 worldC10 envC10 [⟨"A", "5511999990000"⟩] "oi" (by decide)⟩

/-- Claim C5 — the loader never emits a contact with an empty phone,
emitted order is input row order with invalid rows omitted (the loader is
the `filterMap` of the per-row rule), every appended outcome's `rowIndex`
is the contact's 1-based position in the emitted sequence, and on the
quoted three-row table exactly two outcomes arise, with row indexes 1
and 2. -/
theorem C5_load_order_and_row_index :
    (∀ (idxTel : Nat) (idxNome : Option Nat) (rows : List (List String)) (c : Contact),
        c ∈ loadRows idxTel idxNome rows → c.telefone ≠ "") ∧
    (∀ (idxTel : Nat) (idxNome : Option Nat) (rows : List (List String)),
        loadRows idxTel idxNome rows = rows.filterMap (rowContact idxTel idxNome)) ∧
    (∀ (w : World) (env : MainEnv) (cs : List Contact),
        (runBatch w env cs).2.length = cs.length) ∧
    (∀ (w : World) (env : MainEnv) (cs : List Contact) (j : Nat)
        (h : j < (runBatch w env cs).2.length),
        ((runBatch w env cs).2.get ⟨j, h⟩).linha = j + 1) ∧
    (load_contacts_csv ["Nome", "Telefone"]
        [["Ana", "11999990000"], ["", "zz"], ["Bea", "5511888880000"]] =
      .ok [⟨"Ana", "5511999990000"⟩, ⟨"Bea", "5511888880000"⟩]) ∧
    ((runBatch worldC5 envC5 [⟨"Ana", "5511999990000"⟩, ⟨"Bea", "5511888880000"⟩]).2.map
        (fun r => r.linha) = [1, 2]) := by
  have hb : ∀ (idxTel : Nat) (idxNome : Option Nat) (rows : List (List String)),
      loadRows idxTel idxNome rows = rows.filterMap (rowContact idxTel idxNome) := by
    intro idxTel idxNome rows
    induction rows with
    | nil => rfl
    | cons r t ih =>
      show (match rowContact idxTel idxNome r with
            | some c => c :: loadRows idxTel idxNome t
            | none => loadRows idxTel idxNome t) = _
      rw [List.filterMap_cons]
      cases rowContact idxTel idxNome r with
      | none => exact ih
      | some c => rw [ih]
  have hrow : ∀ (idxTel : Nat) (idxNome : Option Nat) (line : List String) (c : Contact),
      rowContact idxTel idxNome line = some c → c.telefone ≠ "" := by
    intro idxTel idxNome line c h
    unfold rowContact at h
    dsimp only at h
    split_ifs at h with h1 h2 h3 h4
    all_goals try exact Option.noConfusion h
    all_goals injection h with h5
    all_goals rw [← h5]
    all_goals assumption
  refine ⟨?_, hb, fun w env cs => runFrom_length w env _ cs 1, ?_, rfl, rfl⟩
  · intro idxTel idxNome rows c hmem
    rw [hb idxTel idxNome rows] at hmem
    obtain ⟨line, _, heq⟩ := List.mem_filterMap.mp hmem
    exact hrow idxTel idxNome line c heq
  · intro w env cs j h
    have h1 := runFrom_linha w env (mainTEXT env.messageTemplate env.messageText) cs 1 j h
    exact h1.trans (Nat.add_comm 1 j)

/-- Witness for C5 at concrete inputs: a loaded contact has a non-empty
phone, and in a two-contact run the outcome at position 1 (0-based) has
row index 2. -/
theorem C5_load_order_and_row_index_witness :
    (⟨"Ana", "5511999990000"⟩ : Contact).telefone ≠ "" ∧
    ((runBatch worldC5 envC5 [⟨"Ana", "5511999990000"⟩, ⟨"Bea", "5511888880000"⟩]).2.get
        ⟨1, by decide⟩).linha = 1 + 1 :=
  ⟨C5_load_order_and_row_index.1 1 (some 0)
      [["Ana", "11999990000"], ["", "zz"], ["Bea", "5511888880000"]] _ (by decide),
   C5_load_order_and_row_index.2.2.2.1 worldC5 envC5 _ 1 (by decide)⟩

/-! ### Claim C3: the status code of a non-2xx dispatch response -/

/-- Claim C3 (code behaviour at the failing input) — a dispatch answered
with HTTP 422 and body `{"error":"invalid number"}` yields a `FALHA`
outcome whose `http` field is 0, not the observed 422: line 151 re-raises
`requests.HTTPError` from a message alone, so the `e.response` read at
line 194 is `None`.  The truncated body does reach the detail message, and
the outcome is appended with the run continuing, as the claim says. -/
theorem C3_http_code_dropped :
    (runBatch worldC3 envC3 [⟨"Ana", "5511999990000"⟩]).2 =
      [⟨1, "5511999990000", "FALHA", 0, Json.obj [("erro", Json.str msgC3)]⟩] ∧
    msgC3 = "422 Client Error: Unprocessable Entity for url: https://h.example/api/v1/messages | body="
      ++ strTake 800 bodyC3 ∧
    (0 : Nat) ≠ 422 := by
  refine ⟨rfl, ?_, by omega⟩
  have h : strTake 800 bodyC3 = bodyC3 := by decide
  rw [h]
  rfl

/-! ### Claim C6: the ledger header is written exactly once -/

theorem append_row_nonempty_noheader {st : LedgerState} (hdisk : st.onDisk = true)
    (hne : st.lines ≠ []) (r : OutcomeRow) :
    (append_row st r).lines = st.lines ++ [recordLine r] := by
  have hie : st.lines.isEmpty = false := by
    cases hl : st.lines with
    | nil => exact absurd hl hne
    | cons a t => rfl
  unfold append_row
  dsimp only
  rw [hdisk, hie]
  rfl

theorem countHeaders_append_row_of_nonempty {st : LedgerState} (hdisk : st.onDisk = true)
    (hne : st.lines ≠ []) (r : OutcomeRow) :
    countHeaders (append_row st r).lines = countHeaders st.lines := by
  rw [append_row_nonempty_noheader hdisk hne r]
  unfold countHeaders
  rw [List.countP_append]
  rfl

theorem countHeaders_runLedger_of_nonempty :
    ∀ (rs : List OutcomeRow) (st : LedgerState), st.onDisk = true → st.lines ≠ [] →
      countHeaders (runLedger st rs).lines = countHeaders st.lines := by
  intro rs
  induction rs with
  | nil => intro st _ _; rfl
  | cons r t ih =>
    intro st hdisk hne
    show countHeaders (runLedger (append_row st r) t).lines = _
    have hne2 : (append_row st r).lines ≠ [] := by
      rw [append_row_nonempty_noheader hdisk hne r]
      simp
    rw [ih (append_row st r) rfl hne2, countHeaders_append_row_of_nonempty hdisk hne r]

theorem append_row_empty {st : LedgerState} (hempty : st.lines = []) (r : OutcomeRow) :
    (append_row st r).lines = [.header, recordLine r] := by
  unfold append_row
  dsimp only
  rw [hempty]
  cases hdisk : st.onDisk <;> rfl

/-- Claim C6 — over any sequence of appends to the same ledger path the
header row is written exactly once, on the first append when the file does
not exist or is empty; an append to an existing non-empty ledger never
rewrites the header; and every call appends exactly one record row. -/
theorem C6_ledger_header_once :
    (∀ (st : LedgerState) (rs : List OutcomeRow), st.lines = [] → rs ≠ [] →
        countHeaders (runLedger st rs).lines = 1) ∧
    (∀ (st : LedgerState) (r : OutcomeRow), st.onDisk = true → st.lines ≠ [] →
        (append_row st r).lines = st.lines ++ [recordLine r]) ∧
    (∀ (st : LedgerState) (r : OutcomeRow),
        countRecords (append_row st r).lines = countRecords st.lines + 1) := by
  refine ⟨?_, fun st r hdisk hne => append_row_nonempty_noheader hdisk hne r, ?_⟩
  · intro st rs hempty hne
    cases rs with
    | nil => exact absurd rfl hne
    | cons r t =>
      show countHeaders (runLedger (append_row st r) t).lines = 1
      have hne2 : (append_row st r).lines ≠ [] := by
        rw [append_row_empty hempty r]
        simp
      rw [countHeaders_runLedger_of_nonempty t (append_row st r) rfl hne2,
        append_row_empty hempty r]
      rfl
  · intro st r
    unfold append_row countRecords
    dsimp only
    split
    · rw [List.countP_append, List.countP_append]
      rfl
    · rw [List.countP_append]
      rfl

/-- Witness for C6: two appends on a fresh path yield exactly one header;
an append on a non-empty ledger only appends its record; each append adds
one record. -/
theorem C6_ledger_header_once_witness :
    countHeaders (runLedger ⟨false, []⟩ [outcomeC6a, outcomeC6b]).lines = 1 ∧
    (append_row ⟨true, [.header]⟩ outcomeC6a).lines = [LedgerLine.header] ++ [recordLine outcomeC6a] ∧
    countRecords (append_row ⟨false, []⟩ outcomeC6a).lines =
      countRecords (⟨false, []⟩ : LedgerState).lines + 1 :=
  ⟨C6_ledger_header_once.1 ⟨false, []⟩ [outcomeC6a, outcomeC6b] rfl (by simp),
   C6_ledger_header_once.2.1 ⟨true, [.header]⟩ outcomeC6a rfl (by simp),
   C6_ledger_header_once.2.2 ⟨false, []⟩ outcomeC6a⟩

/-! ### Claim C7: file-name derivation -/

theorem pyEndsWith_append (x suf : String) : pyEndsWith (x ++ suf) suf = true := by
  unfold pyEndsWith
  refine List.isSuffixOf_iff_suffix.mpr ?_
  rw [String.data_append]
  exact List.suffix_append x.data suf.data

theorem pyLower_append (a b : String) : pyLower (a ++ b) = pyLower a ++ pyLower b := by
  unfold pyLower
  rw [String.data_append, List.map_append]
  rfl

/-- Whatever name comes in, the forced name ends in `.jpg` or `.jpeg` up to
ASCII case. -/
theorem forceJpgName_ends (name : String) :
    pyEndsWith (pyLower (forceJpgName name)) ".jpg" = true ∨
    pyEndsWith (pyLower (forceJpgName name)) ".jpeg" = true := by
  unfold forceJpgName
  by_cases h : (pyEndsWith (pyLower name) ".jpg" || pyEndsWith (pyLower name) ".jpeg") = true
  · rw [if_pos h]
    exact Bool.or_eq_true _ _ |>.mp h
  · rw [if_neg h]
    left
    rw [pyLower_append]
    have hj : pyLower ".jpg" = ".jpg" := by decide
    rw [hj]
    exact pyEndsWith_append _ _

/-- Every POSTed payload of a batch run carries the file name derived from
the configured image source with no explicit name (the main loop passes
`filename=None`), with the `.jpg` forcing applied. -/
theorem post_name_runFrom (w : World) (env : MainEnv) (text : String) :
    ∀ (cs : List Contact) (i : Nat) (url : String) (p : Payload),
      Ev.post url p ∈ (runFrom w env text i cs).1 →
      p.file.name = forceJpgName (deriveFileName none env.image) := by
  intro cs
  induction cs with
  | nil => intro i url p h; cases h
  | cons c rest ih =>
    intro i url p h
    have hruns : (runFrom w env text i (c :: rest)).1 =
        (runStep w env text i c).1 ++ (runFrom w env text (i + 1) rest).1 := rfl
    rw [hruns] at h
    rcases List.mem_append.mp h with h1 | h2
    · rw [runStep_events w env text i c] at h1
      rcases send_events_shape w env.apiV1 env.token c.telefone env.srvid text env.image none
        with hsh | ⟨q, hev, _, _, _, _, hname⟩
      · rw [hsh] at h1
        simp at h1
      · rw [hev] at h1
        simp only [List.mem_cons, List.mem_singleton] at h1
        rcases h1 with h1 | h1
        · cases h1
        · rcases h1 with h1 | h1
          · injection h1 with _ hp
            rw [hp]
            exact hname
          · cases h1
    · exact ih (i + 1) url p h2

/-- Claim C7 (amended) — the prepared payload file name is the explicit
name when given and non-empty, else the local file's base name when the
source does not start with `"http"` (not `"http://"`: a local path whose
name begins with `http` falls through to the default), else the literal
`"image.jpg"`; a `.jpg` extension replaces the current one only when the
lowercased name does not already end in `.jpg`/`.jpeg`, so the resulting
file name always ends in `.jpg` or `.jpeg` up to ASCII case (an explicit
`"banner.JPG"` is kept verbatim), and every POSTed payload of a run uses
this derivation with no explicit name. -/
theorem C7_filename_rules :
    (∀ (f src : String), f ≠ "" → deriveFileName (some f) src = f) ∧
    (∀ src : String, pyStartsWith src "http" = false →
        deriveFileName none src = pathName src) ∧
    (∀ src : String, pyStartsWith src "http" = true →
        deriveFileName none src = "image.jpg") ∧
    (∀ (fn : Option String) (src : String),
        pyEndsWith (pyLower (forceJpgName (deriveFileName fn src))) ".jpg" = true ∨
        pyEndsWith (pyLower (forceJpgName (deriveFileName fn src))) ".jpeg" = true) ∧
    (∀ (w : World) (env : MainEnv) (cs : List Contact) (url : String) (p : Payload),
        Ev.post url p ∈ (runBatch w env cs).1 →
        p.file.name = forceJpgName (deriveFileName none env.image)) := by
  refine ⟨?_, ?_, ?_, fun fn src => forceJpgName_ends (deriveFileName fn src),
    fun w env cs url p h => post_name_runFrom w env _ cs 1 url p h⟩
  · intro f src hf
    unfold deriveFileName orElseStr
    dsimp only
    rw [if_neg hf]
  · intro src h
    unfold deriveFileName orElseStr
    dsimp only
    rw [h]
    rfl
  · intro src h
    unfold deriveFileName orElseStr
    dsimp only
    rw [h]
    rfl

/-- Claim C7 counterexample — with explicit name `"banner.JPG"` the send
POSTs a payload whose file name is kept as `"banner.JPG"`, which ends in
neither the literal `".jpg"` nor `".jpeg"`: the forcing is
case-insensitive, so "always ends in .jpg or .jpeg" fails as stated. -/
theorem C7_counterexample :
    ((send_image_with_caption_base64 worldC7 "https://h.example/api/v1" "tok"
        "5511999990000" "svc" "oi" "img.png" (some "banner.JPG")).1.filterMap
      (fun e => match e with | .post _ p => some p.file.name | _ => none)) = ["banner.JPG"] ∧
    pyEndsWith "banner.JPG" ".jpg" = false ∧
    pyEndsWith "banner.JPG" ".jpeg" = false := by
  refine ⟨rfl, by decide, by decide⟩

/-- Witness for C7 at concrete inputs, including a concrete run whose one
POSTed payload uses the derived name. -/
theorem C7_filename_rules_witness :
    ("pic.png" ≠ "" ∧ deriveFileName (some "pic.png") "banner.jpg" = "pic.png") ∧
    (pyStartsWith "dir/banner.png" "http" = false ∧
      deriveFileName none "dir/banner.png" = pathName "dir/banner.png") ∧
    (pyStartsWith "https://x/im.png" "http" = true ∧
      deriveFileName none "https://x/im.png" = "image.jpg") ∧
    (Ev.post "https://h.example/api/v1/messages" pC7 ∈
        (runBatch worldC7 envC7w [⟨"A", "5511999990000"⟩]).1 ∧
      pC7.file.name = forceJpgName (deriveFileName none envC7w.image)) :=
  ⟨⟨by decide, C7_filename_rules.1 "pic.png" "banner.jpg" (by decide)⟩,
   ⟨by decide, C7_filename_rules.2.1 "dir/banner.png" (by decide)⟩,
   ⟨by decide, C7_filename_rules.2.2.1 "https://x/im.png" (by decide)⟩,
   by decide,
   C7_filename_rules.2.2.2.2 worldC7 envC7w [⟨"A", "5511999990000"⟩]
     "https://h.example/api/v1/messages" pC7 (by decide)⟩

/-! ### Claim C8: the shape of the ledger detail -/

/-- Claim C8 (amended) — every outcome's detail is a one-key wrapper
object, `{"resp": <API response body>}` on success and
`{"erro": str(e)}` on failure (not the bare response body), and the ledger
serializes exactly that object as compact JSON in the appended record. -/
theorem C8_detail_wrapper :
    (∀ (w : World) (env : MainEnv) (text : String) (i : Nat) (c : Contact),
        (∃ j, (runStep w env text i c).2.detalhe = Json.obj [("resp", j)] ∧
              (runStep w env text i c).2.status = "ENVIADO") ∨
        (∃ s, (runStep w env text i c).2.detalhe = Json.obj [("erro", Json.str s)] ∧
              (runStep w env text i c).2.status = "FALHA")) ∧
    (∀ (st : LedgerState) (r : OutcomeRow),
        (append_row st r).lines.getLast? =
          some (.record r.linha r.telefone r.status r.http (Json.dumps r.detalhe))) := by
  constructor
  · intro w env text i c
    unfold runStep
    rcases hs : send_image_with_caption_base64 w env.apiV1 env.token c.telefone env.srvid
        text env.image none with ⟨evs, res⟩
    cases res with
    | ok j => exact Or.inl ⟨j, rfl, rfl⟩
    | error e => exact Or.inr ⟨errStr e, rfl, rfl⟩
  · intro st r
    unfold append_row
    dsimp only
    exact List.getLast?_concat _

/-- Claim C8 counterexample — on success the serialized detail is the
wrapper `{"resp":{"id":"1"}}`, not the response body `{"id":"1"}` itself. -/
theorem C8_counterexample :
    Json.dumps (((runBatch worldC8 envC8 [⟨"Ana", "5511999990000"⟩]).2.headD
        ⟨0, "", "", 0, Json.null⟩).detalhe) = "\x7b\"resp\":\x7b\"id\":\"1\"\x7d\x7d" ∧
    Json.dumps respC8 = "\x7b\"id\":\"1\"\x7d" ∧
    "\x7b\"resp\":\x7b\"id\":\"1\"\x7d\x7d" ≠ "\x7b\"id\":\"1\"\x7d" :=
  ⟨rfl, rfl, by decide⟩

end Digisac






